import Mathlib

/-!
Shallow embedding of the BPMN Camunda 7 to 8 migration analyzer
(src/bpmn_migration.py). The analyzer parses an XML process document,
runs a fixed catalog of validation rule groups over it, accumulating
migration issues and a deduplicated set of expression variables, and
finally derives aggregate statistics. Python strings are modelled as
Lean String, attribute maps as association lists, XML trees as a mutual
inductive, Python set of strings as a lexicographically sorted
duplicate-free list, and absent values (None) as Option.
-/

-- ==================== String primitives ====================

/-- Prefix test on character lists, modelling Python substring search support. -/
def isPrefixOfCL : List Char → List Char → Bool
  | [], _ => true
  | _ :: _, [] => false
  | c :: cs, d :: ds => c = d && isPrefixOfCL cs ds

/-- Containment of a character list inside another, at any position. -/
def containsSubCL (sub : List Char) : List Char → Bool
  | [] => isPrefixOfCL sub []
  | c :: cs => isPrefixOfCL sub (c :: cs) || containsSubCL sub cs

/-- Python `sub in s` substring containment test. -/
def strContains (s sub : String) : Bool := containsSubCL sub.data s.data

/-- Python `s.startswith(p)` prefix test. -/
def strStartsWith (s p : String) : Bool := isPrefixOfCL p.data s.data

/-- ASCII lower-casing of one character, modelling Python `str.lower`. -/
def pyLowerChar (c : Char) : Char :=
  if 65 ≤ c.toNat ∧ c.toNat ≤ 90 then Char.ofNat (c.toNat + 32) else c

/-- Python `s.lower()` on a whole string. -/
def pyLower (s : String) : String := ⟨s.data.map pyLowerChar⟩

/-- Python whitespace characters recognized by `str.strip` and the regex class for spaces. -/
def pySpaceB (c : Char) : Bool :=
  c.toNat = 32 || c.toNat = 9 || c.toNat = 10 || c.toNat = 13 || c.toNat = 11 || c.toNat = 12

/-- Python `s.strip()`: drop leading and trailing whitespace. -/
def pyStrip (s : String) : String :=
  ⟨((s.data.dropWhile pySpaceB).reverse.dropWhile pySpaceB).reverse⟩

/-- Lexicographic strict order on strings by code point, as Python string comparison. -/
def pyStrLt (a b : String) : Bool := ltCL a.data b.data
where ltCL : List Char → List Char → Bool
  | [], [] => false
  | [], _ :: _ => true
  | _ :: _, [] => false
  | c :: cs, d :: ds => c.toNat < d.toNat || (c = d && ltCL cs ds)

-- ==================== Python value helpers ====================

/-- Python truthiness of an optional string: None and the empty string are falsy. -/
def truthyStr : Option String → Bool
  | none => false
  | some s => if s = "" then false else true

/-- Unwrap an optional string after a truthiness check. -/
def optVal (o : Option String) : String := o.getD ""

/-- Python f-string rendering of an optional value: None prints as the text None. -/
def optStr : Option String → String
  | none => "None"
  | some s => s

-- ==================== Variable set ====================

/-- Insertion of a variable name into a sorted duplicate-free list, modelling
Python set insertion with the canonical sorted representation used by the
report (the report always emits `sorted(list(s))`). -/
def insertVar (x : String) : List String → List String
  | [] => [x]
  | y :: ys => if x = y then y :: ys else if pyStrLt x y then x :: y :: ys else y :: insertVar x ys

/-- Union of two variable sets, modelling Python `set.update`. -/
def varsUnion (a b : List String) : List String :=
  b.foldl (fun acc v => insertVar v acc) a

-- ==================== XML document model ====================

mutual
/-- Parsed XML element tree as built by `ET.parse`: a tag, an attribute map,
optional text content and child elements. BPMN-namespace tags are modelled by
their local name; extension-namespace child tags carry the prefix camunda: and
extension-namespace attribute keys carry the brace-wrapped namespace URI,
exactly as the source writes them. -/
inductive XMLElement where
  | mk : String → List (String × String) → Option String → XMLChildren → XMLElement
/-- Spine of sibling elements. -/
inductive XMLChildren where
  | nil : XMLChildren
  | cons : XMLElement → XMLChildren → XMLChildren
end

/-- Child list of an element converted to a plain list. -/
def XMLChildren.toList : XMLChildren → List XMLElement
  | .nil => []
  | .cons e es => e :: es.toList

/-- Build the child spine from a plain list. -/
def XMLChildren.ofList : List XMLElement → XMLChildren
  | [] => .nil
  | e :: es => .cons e (ofList es)

/-- Convenience constructor for concrete documents. -/
def mkEl (tag : String) (attrs : List (String × String)) (text : Option String)
    (children : List XMLElement) : XMLElement :=
  .mk tag attrs text (XMLChildren.ofList children)

/-- Tag of an element. -/
def XMLElement.tagName : XMLElement → String
  | .mk t _ _ _ => t

/-- Attribute map of an element. -/
def XMLElement.attrsOf : XMLElement → List (String × String)
  | .mk _ a _ _ => a

/-- Text content of an element, None when absent as in ElementTree. -/
def XMLElement.textOf : XMLElement → Option String
  | .mk _ _ x _ => x

/-- Direct children of an element. -/
def XMLElement.childrenList : XMLElement → List XMLElement
  | .mk _ _ _ cs => cs.toList

/-- ElementTree `element.get(key)`: optional attribute lookup. -/
def XMLElement.get (e : XMLElement) (key : String) : Option String :=
  (e.attrsOf.find? (fun p => p.fst == key)).map Prod.snd

/-- ElementTree `element.get(key, default)`. -/
def XMLElement.getD (e : XMLElement) (key dflt : String) : String :=
  (e.get key).getD dflt

mutual
/-- All proper descendants of an element in document (preorder) order,
modelling the recursive-descent ElementTree search rooted at the element. -/
def XMLElement.descendants : XMLElement → List XMLElement
  | .mk _ _ _ cs => XMLChildren.descList cs
/-- Descendants of a sibling spine in preorder. -/
def XMLChildren.descList : XMLChildren → List XMLElement
  | .nil => []
  | .cons e es => e :: (e.descendants ++ es.descList)
end

/-- ElementTree `element.find(tag)`: first direct child with the tag. -/
def XMLElement.findChild (e : XMLElement) (t : String) : Option XMLElement :=
  e.childrenList.find? (fun c => c.tagName == t)

/-- ElementTree `element.findall(tag)`: all direct children with the tag. -/
def XMLElement.findChildren (e : XMLElement) (t : String) : List XMLElement :=
  e.childrenList.filter (fun c => c.tagName == t)

/-- ElementTree `root.findall(.//tag)`: all descendants with the tag. -/
def XMLElement.findAll (root : XMLElement) (t : String) : List XMLElement :=
  root.descendants.filter (fun c => c.tagName == t)

/-- ElementTree `root.find(.//tag[@id=...])`: first descendant with the tag
and the given id attribute. -/
def findByTagId (root : XMLElement) (t idv : String) : Option XMLElement :=
  root.descendants.find? (fun c => c.tagName == t && c.get "id" == some idv)

mutual
/-- Structural equality on elements, modelling the Python membership test
`element in list(parent)` used by find_parent. -/
def XMLElement.beq : XMLElement → XMLElement → Bool
  | .mk t1 a1 x1 cs1, .mk t2 a2 x2 cs2 =>
      t1 = t2 && a1 = a2 && x1 = x2 && cs1.beqc cs2
/-- Structural equality on sibling spines. -/
def XMLChildren.beqc : XMLChildren → XMLChildren → Bool
  | .nil, .nil => true
  | .cons c cs, .cons d ds => c.beq d && cs.beqc ds
  | _, _ => false
end

/-- find_parent from the source: scan the whole tree in document order
(root first) and return the first element whose direct children contain
the given element. -/
def find_parent (root : XMLElement) (el : XMLElement) : Option XMLElement :=
  (root :: root.descendants).find? (fun p => p.childrenList.any (fun c => XMLElement.beq c el))

-- ==================== Expression variable extraction ====================

/-- Regex scan for the pattern matching a dollar or hash sign, an opening
brace, one or more non-closing-brace characters, and a closing brace,
returning the captured inner texts of all non-overlapping matches found
left to right, as `re.findall` does. Fuel is the input length; every
recursive call strictly shortens the input so the fuel never runs out. -/
def findMatchesAux : Nat → List Char → List (List Char)
  | 0, _ => []
  | _ + 1, [] => []
  | _ + 1, [_] => []
  | fuel + 1, c1 :: c2 :: cs =>
      if (c1 = '$' ∨ c1 = '#') ∧ c2 = '{' then
        match cs.dropWhile (fun c => !(c = '}')) with
        | '}' :: rest2 =>
            let run := cs.takeWhile (fun c => !(c = '}'))
            if run = [] then findMatchesAux fuel (c2 :: cs)
            else run :: findMatchesAux fuel rest2
        | _ => findMatchesAux fuel (c2 :: cs)
      else findMatchesAux fuel (c2 :: cs)

/-- All captures of the expression pattern inside a string. -/
def findJuelMatches (s : String) : List (List Char) := findMatchesAux s.data.length s.data

/-- Characters at which a captured expression is cut to obtain the leading
variable name: dot, opening square bracket, opening parenthesis, whitespace. -/
def isVarSplitChar (c : Char) : Bool :=
  c = '.' || c = '[' || c = '(' || pySpaceB c

/-- extract_variables_from_expression from the source: find all embedded
expression captures, cut each at the first split character, and collect the
non-empty names as a set. -/
def extract_variables_from_expression (expression : String) : List String :=
  if expression = "" then []
  else
    (findJuelMatches expression).foldl
      (fun acc m =>
        let var_name : String := ⟨m.takeWhile (fun c => !isVarSplitChar c)⟩
        if var_name = "" then acc else insertVar var_name acc) []

-- ==================== Issues ====================

/-- Issue severity levels. -/
inductive Severity where
  | CRITICAL
  | WARNING
  | INFO
deriving DecidableEq

/-- A migration issue with severity and details. -/
structure MigrationIssue where
  severity : Severity
  category : String
  element_id : String
  element_name : String
  message : String
  details : String
deriving DecidableEq

/-- Contribution of one validation step: emitted issues in order, plus the
variable names merged into the global variable set. -/
abbrev Contribution : Type := List MigrationIssue × List String

/-- The empty contribution. -/
def emptyContribution : Contribution := ([], [])

/-- Sequencing of two contributions: issues append in order, variable sets
merge. -/
def combine (a b : Contribution) : Contribution := (a.1 ++ b.1, varsUnion a.2 b.2)

/-- Sequencing of a list of contributions. -/
def combineAll (l : List Contribution) : Contribution := l.foldl combine emptyContribution

-- ==================== Expression syntax validation ====================

/-- Issues emitted by the expression syntax validator for a non-empty
expression string: a CRITICAL legacy-syntax issue when a delimiter marker is
present, then a CRITICAL malformed-expression issue when a marker is present
but no closing brace occurs anywhere in the string. -/
def expressionIssues (expression element_id element_name context : String) : List MigrationIssue :=
  (if strContains expression "$\x7b" || strContains expression "#\x7b" then
    [⟨.CRITICAL, "Expression", element_id, element_name,
      "JUEL/UEL expression detected in " ++ context,
      "Expression \x27" ++ expression ++
        "\x27 uses Camunda 7 syntax. Must be converted to FEEL in Camunda 8. " ++
        "Example: \x27$\x7bmyVar\x7d\x27 -> \x27=myVar\x27"⟩]
  else []) ++
  (if (strContains expression "$\x7b" && !strContains expression "\x7d") ||
      (strContains expression "#\x7b" && !strContains expression "\x7d") then
    [⟨.CRITICAL, "Expression", element_id, element_name,
      "Malformed expression in " ++ context,
      "Expression \x27" ++ expression ++ "\x27 appears to be incomplete"⟩]
  else [])

/-- validate_expression_syntax from the source: skip empty input, otherwise
extract and merge variables and emit the syntax issues. -/
def validate_expression (expression element_id element_name context : String) : Contribution :=
  if expression = "" then emptyContribution
  else (expressionIssues expression element_id element_name context,
        extract_variables_from_expression expression)

-- ==================== Attribute key helpers ====================

/-- Fully qualified extension-namespace attribute key, as written literally in
the source, with the namespace URI wrapped in braces. -/
def camKey (l : String) : String := "\x7bhttp://camunda.org/schema/1.0/bpmn\x7d" ++ l

-- ==================== Service task validation ====================

/-- CRITICAL issue demanding a delegate expression become a Job Worker. -/
def delegateWorkerIssue (task_id task_name delegate : String) : MigrationIssue :=
  ⟨.CRITICAL, "Service Task", task_id, task_name,
   "Delegate expression must be converted to Job Worker",
   "Delegate: " ++ delegate ++ ". Implement as external task worker in Camunda 8."⟩

/-- CRITICAL issue demanding a Java delegate class become a Job Worker. -/
def classWorkerIssue (task_id task_name class_name : String) : MigrationIssue :=
  ⟨.CRITICAL, "Service Task", task_id, task_name,
   "Java delegate class must be converted to Job Worker",
   "Class: " ++ class_name ++ ". Implement as external task worker in Camunda 8."⟩

/-- Loop body of validate_service_tasks for one serviceTask element. -/
def serviceTaskContribution (task : XMLElement) : Contribution :=
  let task_id := task.getD "id" "unknown"
  let task_name := task.getD "name" "Unnamed"
  let task_type := task.get (camKey "type")
  let topic := task.get (camKey "topic")
  let delegate_expression := task.get (camKey "delegateExpression")
  let class_name := task.get (camKey "class")
  let expression := task.get (camKey "expression")
  let connector_id := task.get (camKey "connectorId")
  let async_before := task.get (camKey "asyncBefore")
  let async_after := task.get (camKey "asyncAfter")
  let retry := task.get (camKey "failedJobRetryTimeCycle")
  combineAll
    [ (if task_type == some "external" then
        ([⟨.INFO, "Service Task", task_id, task_name,
           "External task pattern already compatible",
           "Topic: " ++ optStr topic ++ ". Ensure workers are updated to use Camunda 8 client."⟩], [])
      else emptyContribution),
      (if truthyStr delegate_expression then
        combine
          (validate_expression (optVal delegate_expression) task_id task_name "delegateExpression")
          ([delegateWorkerIssue task_id task_name (optVal delegate_expression)], [])
      else emptyContribution),
      (if truthyStr class_name then
        ([classWorkerIssue task_id task_name (optVal class_name)], [])
      else emptyContribution),
      (if truthyStr expression then
        validate_expression (optVal expression) task_id task_name "expression attribute"
      else emptyContribution),
      (if truthyStr connector_id then
        ([⟨.CRITICAL, "Connector", task_id, task_name,
           "Camunda Connector must be migrated",
           "Connector ID: " ++ optVal connector_id ++
             ". Convert to Camunda 8 Connector Template or Job Worker."⟩], [])
      else emptyContribution),
      (if async_before == some "true" || async_after == some "true" then
        ([⟨.INFO, "Configuration", task_id, task_name,
           "Async configuration not needed in Camunda 8",
           "All service tasks are asynchronous by default in Camunda 8."⟩], [])
      else emptyContribution),
      (if truthyStr retry then
        ([⟨.WARNING, "Configuration", task_id, task_name,
           "Retry configuration uses different syntax",
           "Current: " ++ optVal retry ++ ". Use Zeebe retry headers in Camunda 8."⟩], [])
      else emptyContribution) ]

/-- validate_service_tasks over every serviceTask in the document. -/
def validate_service_tasks (root : XMLElement) : Contribution :=
  combineAll ((root.findAll "serviceTask").map serviceTaskContribution)

-- ==================== Script task validation ====================

/-- CRITICAL issue for an unsupported script format. -/
def scriptFormatCriticalIssue (task_id task_name fmt : String) : MigrationIssue :=
  ⟨.CRITICAL, "Script Task", task_id, task_name,
   "Script format \x27" ++ fmt ++ "\x27 not supported in Camunda 8",
   "Consider converting to FEEL or implementing as Job Worker."⟩

/-- WARNING issue for a script format with limited support. -/
def scriptFormatWarningIssue (task_id task_name fmt : String) : MigrationIssue :=
  ⟨.WARNING, "Script Task", task_id, task_name,
   "Script format \x27" ++ fmt ++ "\x27 support is limited",
   "Groovy and JavaScript support may differ. Test thoroughly or convert to FEEL."⟩

/-- Loop body of validate_script_tasks for one scriptTask element. -/
def scriptTaskContribution (task : XMLElement) : Contribution :=
  let task_id := task.getD "id" "unknown"
  let task_name := task.getD "name" "Unnamed"
  let script_format := task.get (camKey "scriptFormat")
  let script_content : Option String :=
    match task.findChild "script" with
    | some se => se.textOf
    | none => some ""
  let fmtIssues :=
    if truthyStr script_format &&
        !((["feel", "javascript", "groovy"] : List String).contains (pyLower (optVal script_format))) then
      [scriptFormatCriticalIssue task_id task_name (optVal script_format)]
    else if truthyStr script_format &&
        ((["groovy", "javascript"] : List String).contains (pyLower (optVal script_format))) then
      [scriptFormatWarningIssue task_id task_name (optVal script_format)]
    else []
  let vars :=
    if truthyStr script_content then extract_variables_from_expression (optVal script_content)
    else []
  (fmtIssues, vars)

/-- validate_script_tasks over every scriptTask in the document. -/
def validate_script_tasks (root : XMLElement) : Contribution :=
  combineAll ((root.findAll "scriptTask").map scriptTaskContribution)

-- ==================== User task validation ====================

/-- Loop body of validate_user_tasks for one userTask element. -/
def userTaskContribution (task : XMLElement) : Contribution :=
  let task_id := task.getD "id" "unknown"
  let task_name := task.getD "name" "Unnamed"
  let form_key := task.get (camKey "formKey")
  let form_ref := task.get (camKey "formRef")
  combineAll
    [ (if truthyStr form_key then
        (if strStartsWith (optVal form_key) "embedded:" ||
            strStartsWith (optVal form_key) "camunda-forms:" then
          ([⟨.CRITICAL, "User Task", task_id, task_name,
             "Embedded form must be converted to Camunda 8 Forms",
             "Form key: " ++ optVal form_key ++ ". Migrate to Camunda Forms JSON schema."⟩], [])
        else
          ([⟨.WARNING, "User Task", task_id, task_name,
             "External form reference needs review",
             "Form key: " ++ optVal form_key ++ ". Ensure form is accessible in Camunda 8."⟩], []))
      else emptyContribution),
      (if truthyStr form_ref then
        ([⟨.WARNING, "User Task", task_id, task_name,
           "Form reference needs verification",
           "Form ref: " ++ optVal form_ref⟩], [])
      else emptyContribution),
      (match task.findChild "extensionElements" with
       | none => emptyContribution
       | some ext =>
         match ext.findChild "camunda:formData" with
         | none => emptyContribution
         | some form_data =>
           let form_fields := form_data.findChildren "camunda:formField"
           if 0 < form_fields.length then
             ([⟨.CRITICAL, "User Task", task_id, task_name,
                "Embedded form with " ++ toString form_fields.length ++ " fields must be migrated",
                "Convert form fields to Camunda 8 Forms JSON schema."⟩], [])
           else emptyContribution),
      (if truthyStr (task.get (camKey "assignee")) then
        validate_expression (optVal (task.get (camKey "assignee"))) task_id task_name "assignee"
      else emptyContribution),
      (if truthyStr (task.get (camKey "candidateUsers")) then
        validate_expression (optVal (task.get (camKey "candidateUsers"))) task_id task_name
          "candidateUsers"
      else emptyContribution),
      (if truthyStr (task.get (camKey "candidateGroups")) then
        validate_expression (optVal (task.get (camKey "candidateGroups"))) task_id task_name
          "candidateGroups"
      else emptyContribution) ]

/-- validate_user_tasks over every userTask in the document. -/
def validate_user_tasks (root : XMLElement) : Contribution :=
  combineAll ((root.findAll "userTask").map userTaskContribution)

-- ==================== Gateway validation ====================

/-- CRITICAL issue emitted unconditionally for a complex gateway. -/
def complexGatewayIssue (gw_id gw_name : String) : MigrationIssue :=
  ⟨.CRITICAL, "Gateway", gw_id, gw_name,
   "Complex gateway not supported in Camunda 8",
   "Consider redesigning using exclusive or parallel gateways."⟩

/-- WARNING issue emitted unconditionally for an event-based gateway. -/
def eventBasedGatewayIssue (gw_id gw_name : String) : MigrationIssue :=
  ⟨.WARNING, "Gateway", gw_id, gw_name,
   "Event-based gateway behavior may differ",
   "Review event correlation and timing in Camunda 8."⟩

/-- Handling of one outgoing reference of a gateway: resolve the sequence
flow by id, and validate its condition expression when present. -/
def outgoingContribution (root : XMLElement) (gw_id gw_name : String)
    (outgoing : XMLElement) : Contribution :=
  match outgoing.textOf with
  | none => emptyContribution
  | some flow_id =>
    if flow_id = "" then emptyContribution
    else
      match findByTagId root "sequenceFlow" flow_id with
      | none => emptyContribution
      | some flow =>
        match flow.findChild "conditionExpression" with
        | none => emptyContribution
        | some condition =>
          if truthyStr condition.textOf then
            validate_expression (pyStrip (optVal condition.textOf)) gw_id gw_name
              ("gateway condition on flow " ++ flow_id)
          else emptyContribution

/-- Gateway tags iterated by validate_gateways. -/
def gateway_types : List String :=
  ["exclusiveGateway", "parallelGateway", "inclusiveGateway",
   "eventBasedGateway", "complexGateway"]

/-- Loop body of validate_gateways for one gateway element of the given type:
condition checks on outgoing flows, then the unconditional structural issues. -/
def gatewayContribution (root : XMLElement) (gw_type : String)
    (gateway : XMLElement) : Contribution :=
  let gw_id := gateway.getD "id" "unknown"
  let gw_name := gateway.getD "name" "Unnamed"
  let condPart :=
    combineAll ((gateway.findChildren "outgoing").map (outgoingContribution root gw_id gw_name))
  combine condPart
    ((if gw_type = "complexGateway" then [complexGatewayIssue gw_id gw_name] else []) ++
     (if gw_type = "eventBasedGateway" then [eventBasedGatewayIssue gw_id gw_name] else []), [])

/-- validate_gateways over every gateway of every gateway type. -/
def validate_gateways (root : XMLElement) : Contribution :=
  combineAll (gateway_types.map (fun g =>
    combineAll ((root.findAll g).map (gatewayContribution root g))))

-- ==================== Event validation ====================

/-- Handling of one timer time element (date, duration or cycle). -/
def timerElementContribution (event_id event_name : String)
    (p : Option XMLElement × String) : Contribution :=
  match p.fst with
  | none => emptyContribution
  | some te =>
    if truthyStr te.textOf then
      let expression := pyStrip (optVal te.textOf)
      combine
        (validate_expression expression event_id event_name ("timer " ++ p.snd))
        ((if !strStartsWith expression "P" && !strStartsWith expression "=" then
            [⟨.WARNING, "Timer", event_id, event_name,
              "Timer " ++ p.snd ++ " should use ISO 8601 format",
              "Expression: " ++ expression ++ ". Ensure compatibility with Camunda 8."⟩]
          else []), [])
    else emptyContribution

/-- validate_timer_event from the source for one timer definition. -/
def validate_timer_event (timer_def : XMLElement) (event_id event_name : String) : Contribution :=
  combineAll
    ([(timer_def.findChild "timeDate", "timeDate"),
      (timer_def.findChild "timeDuration", "timeDuration"),
      (timer_def.findChild "timeCycle", "timeCycle")].map
      (timerElementContribution event_id event_name))

/-- validate_message_event from the source for one message definition. -/
def validate_message_event (root : XMLElement) (message_def : XMLElement)
    (event_id event_name : String) : Contribution :=
  let message_ref := message_def.get "messageRef"
  if truthyStr message_ref then
    match findByTagId root "message" (optVal message_ref) with
    | none => emptyContribution
    | some message =>
      let message_name := message.get "name"
      match message.findChild "extensionElements" with
      | none => emptyContribution
      | some _ =>
        ([⟨.WARNING, "Message Event", event_id, event_name,
           "Message correlation may need adjustment",
           "Message: " ++ optStr message_name ++ ". Review correlation keys for Camunda 8."⟩], [])
  else emptyContribution

/-- validate_signal_event from the source for one signal definition. -/
def validate_signal_event (signal_def : XMLElement) (event_id event_name : String) : Contribution :=
  let signal_ref := signal_def.get "signalRef"
  if truthyStr signal_ref then
    ([⟨.WARNING, "Signal Event", event_id, event_name,
       "Signal event behavior may differ in Camunda 8",
       "Signal reference: " ++ optVal signal_ref ++ ". Verify signal scope and propagation."⟩], [])
  else emptyContribution

/-- validate_error_event from the source for one error definition. -/
def validate_error_event (root : XMLElement) (error_def : XMLElement)
    (event_id event_name : String) : Contribution :=
  let error_ref := error_def.get "errorRef"
  if truthyStr error_ref then
    match findByTagId root "error" (optVal error_ref) with
    | none => emptyContribution
    | some err =>
      let error_code_attr := err.get "errorCode"
      let error_name_attr := err.get "name"
      ([⟨.INFO, "Error Event", event_id, event_name,
         "Error handling is compatible but verify error codes",
         "Error: " ++ optStr error_name_attr ++ ", Code: " ++ optStr error_code_attr⟩], [])
  else emptyContribution

/-- Event tags iterated by validate_events. -/
def event_types : List String :=
  ["startEvent", "endEvent", "intermediateCatchEvent",
   "intermediateThrowEvent", "boundaryEvent"]

/-- Loop body of validate_events for one event element. -/
def eventContribution (root : XMLElement) (event : XMLElement) : Contribution :=
  let event_id := event.getD "id" "unknown"
  let event_name := event.getD "name" "Unnamed"
  combineAll
    [ (match event.findChild "timerEventDefinition" with
       | some d => validate_timer_event d event_id event_name
       | none => emptyContribution),
      (match event.findChild "messageEventDefinition" with
       | some d => validate_message_event root d event_id event_name
       | none => emptyContribution),
      (match event.findChild "signalEventDefinition" with
       | some d => validate_signal_event d event_id event_name
       | none => emptyContribution),
      (match event.findChild "errorEventDefinition" with
       | some d => validate_error_event root d event_id event_name
       | none => emptyContribution),
      (match event.findChild "escalationEventDefinition" with
       | some _ =>
          ([⟨.WARNING, "Event", event_id, event_name,
             "Escalation event behavior may differ in Camunda 8",
             "Review escalation handling and consider alternatives."⟩], [])
       | none => emptyContribution) ]

/-- validate_events over every event of every event type. -/
def validate_events (root : XMLElement) : Contribution :=
  combineAll (event_types.map (fun t =>
    combineAll ((root.findAll t).map (eventContribution root))))

-- ==================== Listener validation ====================

/-- validate_listener from the source for one listener element. -/
def listenerContribution (element_id element_name listener_type : String)
    (listener : XMLElement) : Contribution :=
  let event := listener.get "event"
  let delegate_expression := listener.get "delegateExpression"
  let class_name := listener.get "class"
  let expression := listener.get "expression"
  if truthyStr delegate_expression || truthyStr class_name || truthyStr expression then
    combine
      ([⟨.CRITICAL, listener_type, element_id, element_name,
         listener_type ++ " not supported in Camunda 8",
         "Event: " ++ optStr event ++ ". Convert listener logic to Job Worker or process redesign."⟩], [])
      (combine
        (if truthyStr delegate_expression then
          validate_expression (optVal delegate_expression) element_id element_name listener_type
        else emptyContribution)
        (if truthyStr expression then
          validate_expression (optVal expression) element_id element_name listener_type
        else emptyContribution))
  else emptyContribution

/-- Listener checks for one element: both listener kinds inside its
extension block. -/
def elementListenersContribution (element : XMLElement) : Contribution :=
  let element_id := element.getD "id" "unknown"
  let element_name := element.getD "name" "Unnamed"
  match element.findChild "extensionElements" with
  | none => emptyContribution
  | some ext =>
    combine
      (combineAll ((ext.findChildren "camunda:taskListener").map
        (listenerContribution element_id element_name "Task Listener")))
      (combineAll ((ext.findChildren "camunda:executionListener").map
        (listenerContribution element_id element_name "Execution Listener")))

/-- validate_listeners over every element in the document. -/
def validate_listeners (root : XMLElement) : Contribution :=
  combineAll (root.descendants.map elementListenersContribution)

-- ==================== Call activity and business rule validation ====================

/-- Loop body of validate_call_activities for one callActivity element. -/
def callActivityContribution (activity : XMLElement) : Contribution :=
  let activity_id := activity.getD "id" "unknown"
  let activity_name := activity.getD "name" "Unnamed"
  let called_element := activity.get "calledElement"
  combine
    (if truthyStr called_element then
      combine
        (validate_expression (optVal called_element) activity_id activity_name "calledElement")
        ([⟨.WARNING, "Call Activity", activity_id, activity_name,
           "Call activity requires verification",
           "Called element: " ++ optVal called_element ++
             ". Ensure called process exists in Camunda 8."⟩], [])
    else emptyContribution)
    (match activity.findChild "extensionElements" with
     | none => emptyContribution
     | some ext =>
       let in_mappings := ext.findChildren "camunda:in"
       let out_mappings := ext.findChildren "camunda:out"
       if 0 < in_mappings.length || 0 < out_mappings.length then
         ([⟨.WARNING, "Call Activity", activity_id, activity_name,
            "Variable mapping syntax differs in Camunda 8",
            "Found " ++ toString in_mappings.length ++ " input and " ++
              toString out_mappings.length ++ " output mappings."⟩], [])
       else emptyContribution)

/-- validate_call_activities over every callActivity in the document. -/
def validate_call_activities (root : XMLElement) : Contribution :=
  combineAll ((root.findAll "callActivity").map callActivityContribution)

/-- Loop body of validate_business_rule_tasks for one businessRuleTask. -/
def businessRuleContribution (task : XMLElement) : Contribution :=
  let task_id := task.getD "id" "unknown"
  let task_name := task.getD "name" "Unnamed"
  let decision_ref := task.get (camKey "decisionRef")
  if truthyStr decision_ref then
    combine
      (validate_expression (optVal decision_ref) task_id task_name "decisionRef")
      ([⟨.WARNING, "Business Rule Task", task_id, task_name,
         "DMN decision reference needs verification",
         "Decision: " ++ optVal decision_ref ++
           ". Ensure DMN is deployed and compatible with Camunda 8."⟩], [])
  else emptyContribution

/-- validate_business_rule_tasks over every businessRuleTask. -/
def validate_business_rule_tasks (root : XMLElement) : Contribution :=
  combineAll ((root.findAll "businessRuleTask").map businessRuleContribution)

-- ==================== Multi-instance and subprocess validation ====================

/-- Loop body of validate_multi_instance for one multi-instance block. -/
def multiInstanceContribution (root : XMLElement) (mi : XMLElement) : Contribution :=
  match find_parent root mi with
  | none => emptyContribution
  | some parent =>
    let parent_id := parent.getD "id" "unknown"
    let parent_name := parent.getD "name" "Unnamed"
    let collection := mi.get (camKey "collection")
    combine
      (if truthyStr collection then
        validate_expression (optVal collection) parent_id parent_name "multi-instance collection"
      else emptyContribution)
      (match mi.findChild "completionCondition" with
       | none => emptyContribution
       | some cc =>
         if truthyStr cc.textOf then
           validate_expression (pyStrip (optVal cc.textOf)) parent_id parent_name
             "multi-instance completion condition"
         else emptyContribution)

/-- validate_multi_instance over every multi-instance block. -/
def validate_multi_instance (root : XMLElement) : Contribution :=
  combineAll ((root.findAll "multiInstanceLoopCharacteristics").map
    (multiInstanceContribution root))

/-- Loop body of validate_subprocesses for one subProcess element. -/
def subprocessContribution (sp : XMLElement) : Contribution :=
  let subprocess_id := sp.getD "id" "unknown"
  let subprocess_name := sp.getD "name" "Unnamed"
  let triggered_by_event := sp.get "triggeredByEvent"
  if triggered_by_event == some "true" then
    ([⟨.WARNING, "Subprocess", subprocess_id, subprocess_name,
       "Event subprocess behavior may differ in Camunda 8",
       "Review event subprocess triggering and variable scope."⟩], [])
  else emptyContribution

/-- validate_subprocesses over every subProcess. -/
def validate_subprocesses (root : XMLElement) : Contribution :=
  combineAll ((root.findAll "subProcess").map subprocessContribution)

-- ==================== Input output mapping validation ====================

/-- Handling of one input or output parameter of an extension block. -/
def ioParamContribution (element_id element_name : String) (param : XMLElement) : Contribution :=
  let param_name := param.get "name"
  let param_text := param.textOf
  combine
    (if truthyStr param_text then
      validate_expression (pyStrip (optVal param_text)) element_id element_name
        ("I/O parameter " ++ optStr param_name)
    else emptyContribution)
    (match param.findChild "camunda:script" with
     | none => emptyContribution
     | some _ =>
       ([⟨.CRITICAL, "I/O Mapping", element_id, element_name,
          "Script in I/O parameter not supported",
          "Parameter: " ++ optStr param_name ++ ". Convert to FEEL expression or Job Worker."⟩], []))

/-- Input output mapping checks for one element. -/
def elementIOContribution (element : XMLElement) : Contribution :=
  let element_id := element.getD "id" "unknown"
  let element_name := element.getD "name" "Unnamed"
  match element.findChild "extensionElements" with
  | none => emptyContribution
  | some ext =>
    match ext.findChild "camunda:inputOutput" with
    | none => emptyContribution
    | some io =>
      let input_params := io.findChildren "camunda:inputParameter"
      let output_params := io.findChildren "camunda:outputParameter"
      combineAll ((input_params ++ output_params).map
        (ioParamContribution element_id element_name))

/-- validate_input_output_mappings over every element. -/
def validate_input_output_mappings (root : XMLElement) : Contribution :=
  combineAll (root.descendants.map elementIOContribution)

-- ==================== Configuration and namespace validation ====================

/-- Loop body of validate_configurations for one element. -/
def configurationContribution (element : XMLElement) : Contribution :=
  let element_id := element.getD "id" "unknown"
  let element_name := element.getD "name" "Unnamed"
  let history_ttl := element.get (camKey "historyTimeToLive")
  let job_priority := element.get (camKey "jobPriority")
  combine
    (if truthyStr history_ttl then
      ([⟨.INFO, "Configuration", element_id, element_name,
         "History TTL configuration not applicable in Camunda 8",
         "TTL: " ++ optVal history_ttl ++ ". Camunda 8 has different data retention mechanisms."⟩], [])
    else emptyContribution)
    (if truthyStr job_priority then
      ([⟨.INFO, "Configuration", element_id, element_name,
         "Job priority not supported in Camunda 8",
         "Priority: " ++ optVal job_priority⟩], [])
    else emptyContribution)

/-- validate_configurations over every element. -/
def validate_configurations (root : XMLElement) : Contribution :=
  combineAll (root.descendants.map configurationContribution)

/-- validate_namespaces: root schema-location check. -/
def validate_namespaces (root : XMLElement) : Contribution :=
  let bpmn_ns := root.get "\x7bhttp://www.w3.org/2001/XMLSchema-instance\x7dschemaLocation"
  if !truthyStr bpmn_ns || !strContains (optVal bpmn_ns) "BPMN/20100524" then
    ([⟨.WARNING, "BPMN", "root", "BPMN Document",
       "BPMN 2.0 namespace may be incorrect or missing",
       "Ensure BPMN uses correct BPMN 2.0 namespace."⟩], [])
  else emptyContribution

-- ==================== Statistics ====================

/-- Count of issues of a given severity. -/
def sevCount (issues : List MigrationIssue) (s : Severity) : Nat :=
  (issues.filter (fun i => decide (i.severity = s))).length

/-- Increment of a key in an insertion-ordered counting dictionary, modelling
`d[k] = d.get(k, 0) + 1`. -/
def bumpCount : List (String × Nat) → String → List (String × Nat)
  | [], k => [(k, 1)]
  | (k0, v) :: rest, k =>
      if k0 = k then (k0, v + 1) :: rest else (k0, v) :: bumpCount rest k

/-- Element tags tracked by the statistics aggregator, in source order. -/
def element_types : List String :=
  ["serviceTask", "userTask", "scriptTask", "businessRuleTask", "callActivity",
   "startEvent", "endEvent", "intermediateCatchEvent", "intermediateThrowEvent",
   "boundaryEvent", "exclusiveGateway", "parallelGateway", "inclusiveGateway",
   "eventBasedGateway", "subProcess"]

/-- Aggregate statistics of an analysis run. -/
structure Statistics where
  total_elements : Nat
  element_counts : List (String × Nat)
  total_issues : Nat
  issue_counts_by_severity : List (String × Nat)
  issue_counts_by_category : List (String × Nat)
  total_variables_detected : Nat
deriving DecidableEq

/-- calculate_statistics from the source: count tracked elements and
accumulate their total, count issues overall, by severity and by category,
and count the distinct variables. -/
def calculate_statistics (root : XMLElement) (issues : List MigrationIssue)
    (vars : List String) : Statistics :=
  let element_counts := element_types.map (fun t => (t, (root.findAll t).length))
  let total_elements := (element_counts.map Prod.snd).sum
  let issue_counts :=
    [("CRITICAL", sevCount issues .CRITICAL),
     ("WARNING", sevCount issues .WARNING),
     ("INFO", sevCount issues .INFO)]
  let category_counts := issues.foldl (fun acc i => bumpCount acc i.category) []
  { total_elements := total_elements,
    element_counts := element_counts,
    total_issues := issues.length,
    issue_counts_by_severity := issue_counts,
    issue_counts_by_category := category_counts,
    total_variables_detected := vars.length }

-- ==================== Analysis orchestration ====================

/-- The final analysis report: source identifier, statistics, ordered issue
list and the sorted deduplicated variable names. The wall-clock timestamp of
the source report is outside the model. -/
structure AnalysisReport where
  file : String
  statistics : Statistics
  issues : List MigrationIssue
  process_variables : List String
deriving DecidableEq

/-- All rule groups in the fixed order of the analyze method. -/
def runValidations (root : XMLElement) : Contribution :=
  combineAll
    [validate_namespaces root,
     validate_service_tasks root,
     validate_script_tasks root,
     validate_user_tasks root,
     validate_gateways root,
     validate_events root,
     validate_listeners root,
     validate_call_activities root,
     validate_business_rule_tasks root,
     validate_multi_instance root,
     validate_subprocesses root,
     validate_input_output_mappings root,
     validate_configurations root]

/-- The successful branch of analyze: run all validations, then compute
statistics once, then build the report. -/
def runAnalysis (file : String) (root : XMLElement) : AnalysisReport :=
  let c := runValidations root
  { file := file,
    statistics := calculate_statistics root c.1 c.2,
    issues := c.1,
    process_variables := c.2 }

/-- analyze from the source: a failed parse (modelled as a missing root)
short-circuits to the empty failure result before any rule group runs;
otherwise the full pipeline executes. -/
def analyze (file : String) (parsed : Option XMLElement) : Option AnalysisReport :=
  match parsed with
  | none => none
  | some root => some (runAnalysis file root)

/-- Sum of the values of a counting dictionary. -/
def sumValues (l : List (String × Nat)) : Nat := (l.map Prod.snd).sum

/-- Observable identity of an issue as used by the determinism property. -/
def issueTuples (r : AnalysisReport) : List (Severity × String × String × String) :=
  r.issues.map (fun i => (i.severity, i.category, i.element_id, i.message))

-- ==================== Concrete example documents ====================

/-- A minimal document with one process and one user task. -/
def sampleDoc : XMLElement :=
  mkEl "definitions" [] none
    [mkEl "process" [("id", "p1")] none
      [mkEl "userTask" [("id", "u1")] none []]]

/-- A document whose only flow element is a complex gateway. -/
def cgDoc : XMLElement :=
  mkEl "definitions" [] none
    [mkEl "process" [("id", "p1")] none
      [mkEl "complexGateway" [("id", "cg1")] none []]]

/-- A service task whose implementation-class attribute holds a legacy
expression, used to observe that the class value never reaches the
expression validator. -/
def cxServiceTask : XMLElement :=
  mkEl "serviceTask" [("id", "t1"), (camKey "class", "$\x7bcls\x7d")] none []

/-- A service task carrying a delegate expression, a class and a generic
expression at once. -/
def fullServiceTask : XMLElement :=
  mkEl "serviceTask"
    [("id", "t2"), (camKey "delegateExpression", "$\x7bdel\x7d"),
     (camKey "class", "com.acme.MyDelegate"), (camKey "expression", "$\x7bexp\x7d")]
    none []

/-- A script task declaring the unsupported format python. -/
def pythonScriptTask : XMLElement :=
  mkEl "scriptTask" [("id", "s1"), (camKey "scriptFormat", "python")] none []

/-- A script task declaring the limited-support format groovy. -/
def groovyScriptTask : XMLElement :=
  mkEl "scriptTask" [("id", "s2"), (camKey "scriptFormat", "groovy")] none []

/-- A script task declaring the supported format feel. -/
def feelScriptTask : XMLElement :=
  mkEl "scriptTask" [("id", "s3"), (camKey "scriptFormat", "feel")] none []

-- ==================== Helper lemmas ====================

/-- Membership in the variable set after one insertion. -/
theorem mem_insertVar (v x : String) (l : List String) :
    v ∈ insertVar x l ↔ v = x ∨ v ∈ l := by
  induction l with
  | nil => simp [insertVar]
  | cons y ys ih =>
    simp only [insertVar]
    split
    · next h => subst h; simp [List.mem_cons]
    · split
      · simp [List.mem_cons]
      · simp [List.mem_cons, ih]; tauto

/-- Membership in the union of two variable sets. -/
theorem mem_varsUnion (v : String) (a b : List String) :
    v ∈ varsUnion a b ↔ v ∈ a ∨ v ∈ b := by
  induction b generalizing a with
  | nil => simp [varsUnion]
  | cons x xs ih =>
    have hstep : varsUnion a (x :: xs) = varsUnion (insertVar x a) xs := rfl
    rw [hstep, ih, mem_insertVar]
    simp [List.mem_cons]
    tauto

/-- Issues of a fold of contributions. -/
theorem mem_issues_foldl (l : List Contribution) (acc : Contribution) (i : MigrationIssue) :
    i ∈ (l.foldl combine acc).1 ↔ i ∈ acc.1 ∨ ∃ c ∈ l, i ∈ c.1 := by
  induction l generalizing acc with
  | nil => simp
  | cons c cs ih =>
    rw [List.foldl_cons, ih]
    simp [combine, List.mem_append]
    tauto

/-- Issues of a combined list of contributions. -/
theorem mem_issues_combineAll (l : List Contribution) (i : MigrationIssue) :
    i ∈ (combineAll l).1 ↔ ∃ c ∈ l, i ∈ c.1 := by
  rw [combineAll, mem_issues_foldl]
  simp [emptyContribution]

/-- Variables of a fold of contributions. -/
theorem mem_vars_foldl (l : List Contribution) (acc : Contribution) (v : String) :
    v ∈ (l.foldl combine acc).2 ↔ v ∈ acc.2 ∨ ∃ c ∈ l, v ∈ c.2 := by
  induction l generalizing acc with
  | nil => simp
  | cons c cs ih =>
    rw [List.foldl_cons, ih]
    simp [combine, mem_varsUnion]
    tauto

/-- Variables of a combined list of contributions. -/
theorem mem_vars_combineAll (l : List Contribution) (v : String) :
    v ∈ (combineAll l).2 ↔ ∃ c ∈ l, v ∈ c.2 := by
  rw [combineAll, mem_vars_foldl]
  simp [emptyContribution]

/-- Every issue the expression validator can emit is in category Expression. -/
theorem mem_expressionIssues_category (i : MigrationIssue) (e a b c : String)
    (h : i ∈ expressionIssues e a b c) : i.category = "Expression" := by
  unfold expressionIssues at h
  rcases List.mem_append.mp h with h1 | h1 <;> (split at h1 <;> simp_all)

/-- Every issue of a validate_expression contribution is in category Expression. -/
theorem mem_validate_expression_category (i : MigrationIssue) (e a b c : String)
    (h : i ∈ (validate_expression e a b c).1) : i.category = "Expression" := by
  unfold validate_expression at h
  split at h
  · simp [emptyContribution] at h
  · exact mem_expressionIssues_category i e a b c h

/-- Every issue of an outgoing-flow condition check is in category Expression. -/
theorem mem_outgoing_category (root : XMLElement) (gid gname : String) (o : XMLElement)
    (i : MigrationIssue) (h : i ∈ (outgoingContribution root gid gname o).1) :
    i.category = "Expression" := by
  unfold outgoingContribution at h
  split at h
  · simp [emptyContribution] at h
  · split at h
    · simp [emptyContribution] at h
    · split at h
      · simp [emptyContribution] at h
      · split at h
        · simp [emptyContribution] at h
        · split at h
          · exact mem_validate_expression_category _ _ _ _ _ h
          · simp [emptyContribution] at h

/-- Every issue of the condition part of a gateway check is in category Expression. -/
theorem gateway_condPart_category (root : XMLElement) (gid gname : String)
    (outs : List XMLElement) (i : MigrationIssue)
    (h : i ∈ (combineAll (outs.map (outgoingContribution root gid gname))).1) :
    i.category = "Expression" := by
  rcases (mem_issues_combineAll _ _).mp h with ⟨c, hc, hi⟩
  rcases List.mem_map.mp hc with ⟨o, _, rfl⟩
  exact mem_outgoing_category root gid gname o i hi

/-- The three severity buckets partition the issue list. -/
theorem sevCount_partition (issues : List MigrationIssue) :
    sevCount issues .CRITICAL + sevCount issues .WARNING + sevCount issues .INFO
      = issues.length := by
  induction issues with
  | nil => rfl
  | cons i is ih =>
    unfold sevCount at ih ⊢
    cases h : i.severity <;> simp [List.filter_cons, h] <;> omega

-- ==================== Claim theorems ====================

/-- C8: the Expression Variable Extractor returns exactly the set containing
myDelegate for the first sample input, exactly the set containing order for
the dotted sample input, and the empty set for empty input. -/
theorem extractor_sample_values :
    extract_variables_from_expression "$\x7bmyDelegate\x7d" = ["myDelegate"] ∧
    extract_variables_from_expression "$\x7border.total\x7d" = ["order"] ∧
    extract_variables_from_expression "" = [] := by
  refine ⟨by decide, by decide, rfl⟩

/-- C2: a single validator call on the unbalanced input emits exactly two
CRITICAL Expression issues, the legacy-syntax issue followed by the
malformed-expression issue, and no variables. -/
theorem unbalanced_expression_two_issues :
    validate_expression "$\x7bmyVar" "task1" "Task 1" "delegateExpression" =
      ([⟨.CRITICAL, "Expression", "task1", "Task 1",
         "JUEL/UEL expression detected in delegateExpression",
         "Expression \x27$\x7bmyVar\x27 uses Camunda 7 syntax. Must be converted to FEEL in Camunda 8. Example: \x27$\x7bmyVar\x7d\x27 -> \x27=myVar\x27"⟩,
        ⟨.CRITICAL, "Expression", "task1", "Task 1",
         "Malformed expression in delegateExpression",
         "Expression \x27$\x7bmyVar\x27 appears to be incomplete"⟩], []) := by
  decide

/-- C4: a parse failure short-circuits the run before any rule group executes,
producing the distinct failure result with no issues, no statistics and no
partial report. -/
theorem parse_failure_no_report : ∀ file : String, analyze file none = none :=
  fun _ => rfl

/-- C9: analysis is deterministic; two runs of the full analysis on the same
document agree on the issue tuples, the variable set and the statistics. -/
theorem analysis_deterministic :
    ∀ (file : String) (parsed : Option XMLElement),
      (analyze file parsed).map issueTuples = (analyze file parsed).map issueTuples ∧
      (analyze file parsed).map AnalysisReport.process_variables =
        (analyze file parsed).map AnalysisReport.process_variables ∧
      (analyze file parsed).map AnalysisReport.statistics =
        (analyze file parsed).map AnalysisReport.statistics :=
  fun _ _ => ⟨rfl, rfl, rfl⟩

/-- C1: for every non-empty expression containing a delimiter marker, the
validator emits at least one CRITICAL Expression issue, and its variable
contribution is exactly the extractor result, which the run merges into the
global variable set. -/
theorem expression_validator_critical_and_vars
    (expression element_id element_name context : String)
    (hne : expression ≠ "")
    (h : strContains expression "$\x7b" = true ∨ strContains expression "#\x7b" = true) :
    0 < ((validate_expression expression element_id element_name context).1.filter
        (fun i => decide (i.severity = Severity.CRITICAL) &&
                  decide (i.category = "Expression"))).length ∧
    (validate_expression expression element_id element_name context).2 =
      extract_variables_from_expression expression := by
  unfold validate_expression
  rw [if_neg hne]
  refine ⟨?_, rfl⟩
  unfold expressionIssues
  rcases h with h | h <;> rw [h] <;> simp

/-- Witness for C1 at a concrete legacy expression. -/
theorem expression_validator_critical_and_vars_witness :
    0 < ((validate_expression "$\x7bmyVar\x7d" "t1" "T" "assignee").1.filter
        (fun i => decide (i.severity = Severity.CRITICAL) &&
                  decide (i.category = "Expression"))).length ∧
    (validate_expression "$\x7bmyVar\x7d" "t1" "T" "assignee").2 =
      extract_variables_from_expression "$\x7bmyVar\x7d" :=
  expression_validator_critical_and_vars "$\x7bmyVar\x7d" "t1" "T" "assignee"
    (by decide) (Or.inl (by decide))

/-- C3: every completed analysis run satisfies both statistics invariants:
the severity counts sum to the total issue count and the element counts sum
to the total element count. -/
theorem statistics_sums_invariant (file : String) (root : XMLElement) (r : AnalysisReport)
    (h : analyze file (some root) = some r) :
    sumValues r.statistics.issue_counts_by_severity = r.statistics.total_issues ∧
    sumValues r.statistics.element_counts = r.statistics.total_elements := by
  have hr : some (runAnalysis file root) = some r := h
  obtain rfl : runAnalysis file root = r := Option.some.inj hr
  constructor
  · have hp := sevCount_partition (runValidations root).1
    simp [runAnalysis, calculate_statistics, sumValues]
    omega
  · rfl

/-- Witness for C3 on a concrete document. -/
theorem statistics_sums_invariant_witness :
    sumValues (runAnalysis "sample.bpmn" sampleDoc).statistics.issue_counts_by_severity =
      (runAnalysis "sample.bpmn" sampleDoc).statistics.total_issues ∧
    sumValues (runAnalysis "sample.bpmn" sampleDoc).statistics.element_counts =
      (runAnalysis "sample.bpmn" sampleDoc).statistics.total_elements :=
  statistics_sums_invariant "sample.bpmn" sampleDoc (runAnalysis "sample.bpmn" sampleDoc) rfl

/-- C7: for every gateway element, the complexGateway pass emits exactly one
Gateway-category issue, which is CRITICAL, and the eventBasedGateway pass
emits exactly one Gateway-category issue, which is WARNING, both regardless
of the conditions carried by outgoing flows. -/
theorem gateway_structural_issues (root gateway : XMLElement) :
    ((gatewayContribution root "complexGateway" gateway).1.filter
        (fun i => decide (i.category = "Gateway"))) =
      [complexGatewayIssue (gateway.getD "id" "unknown") (gateway.getD "name" "Unnamed")] ∧
    ((gatewayContribution root "eventBasedGateway" gateway).1.filter
        (fun i => decide (i.category = "Gateway"))) =
      [eventBasedGatewayIssue (gateway.getD "id" "unknown") (gateway.getD "name" "Unnamed")] ∧
    (complexGatewayIssue (gateway.getD "id" "unknown") (gateway.getD "name" "Unnamed")).severity =
      Severity.CRITICAL ∧
    (eventBasedGatewayIssue (gateway.getD "id" "unknown") (gateway.getD "name" "Unnamed")).severity =
      Severity.WARNING := by
  have hnil : ((combineAll ((gateway.findChildren "outgoing").map
      (outgoingContribution root (gateway.getD "id" "unknown")
        (gateway.getD "name" "Unnamed")))).1.filter
      (fun i => decide (i.category = "Gateway"))) = [] := by
    rw [List.filter_eq_nil_iff]
    intro i hi
    have hc := gateway_condPart_category root (gateway.getD "id" "unknown")
      (gateway.getD "name" "Unnamed") (gateway.findChildren "outgoing") i hi
    simp [hc]
  refine ⟨?_, ?_, rfl, rfl⟩ <;>
    simp [gatewayContribution, combine, List.filter_append, hnil,
          complexGatewayIssue, eventBasedGatewayIssue]

/-- C6: for a scriptTask with a declared (truthy) script format, compared
case-insensitively, a format outside the supported set yields exactly the one
CRITICAL Script Task issue, a groovy or javascript format yields exactly the
one WARNING Script Task issue, and the feel format yields no issue at all. -/
theorem script_format_issue_cases (task : XMLElement) (f : String)
    (hf : task.get (camKey "scriptFormat") = some f) (hne : f ≠ "") :
    (pyLower f ∉ (["feel", "javascript", "groovy"] : List String) →
      (scriptTaskContribution task).1 =
        [scriptFormatCriticalIssue (task.getD "id" "unknown") (task.getD "name" "Unnamed") f]) ∧
    (pyLower f ∈ (["groovy", "javascript"] : List String) →
      (scriptTaskContribution task).1 =
        [scriptFormatWarningIssue (task.getD "id" "unknown") (task.getD "name" "Unnamed") f]) ∧
    (pyLower f = "feel" → (scriptTaskContribution task).1 = []) := by
  refine ⟨?_, ?_, ?_⟩ <;> intro h
  · simp [scriptTaskContribution, hf, truthyStr, hne, optVal, h]
  · rcases List.mem_pair.mp h with hg | hg <;>
      simp [scriptTaskContribution, hf, truthyStr, hne, optVal, hg]
  · simp [scriptTaskContribution, hf, truthyStr, hne, optVal, h]

/-- Witness for C6 on the three concrete script formats. -/
theorem script_format_issue_cases_witness :
    (scriptTaskContribution pythonScriptTask).1 =
      [scriptFormatCriticalIssue "s1" "Unnamed" "python"] ∧
    (scriptTaskContribution groovyScriptTask).1 =
      [scriptFormatWarningIssue "s2" "Unnamed" "groovy"] ∧
    (scriptTaskContribution feelScriptTask).1 = [] :=
  ⟨(script_format_issue_cases pythonScriptTask "python" (by decide) (by decide)).1
      (by decide),
   (script_format_issue_cases groovyScriptTask "groovy" (by decide) (by decide)).2.1
      (by decide),
   (script_format_issue_cases feelScriptTask "feel" (by decide) (by decide)).2.2
      (by decide)⟩

/-- C5 counterexample: a serviceTask whose implementation-class value is the
legacy expression on cls. Passing that value through the expression validator
would emit an Expression issue and record the variable cls, yet the service
task pass emits only the worker issue, no Expression-category issue, and an
empty variable contribution: the class value is never routed through the
Expression Syntax Validator. -/
theorem class_attribute_not_expression_validated :
    cxServiceTask.get (camKey "class") = some "$\x7bcls\x7d" ∧
    strContains "$\x7bcls\x7d" "$\x7b" = true ∧
    (validate_expression "$\x7bcls\x7d" "t1" "Unnamed" "class").2 = ["cls"] ∧
    0 < ((validate_expression "$\x7bcls\x7d" "t1" "Unnamed" "class").1.filter
        (fun i => decide (i.category = "Expression"))).length ∧
    ((serviceTaskContribution cxServiceTask).1.filter
        (fun i => decide (i.category = "Expression"))) = [] ∧
    (serviceTaskContribution cxServiceTask).2 = [] ∧
    (serviceTaskContribution cxServiceTask).1 =
      [classWorkerIssue "t1" "Unnamed" "$\x7bcls\x7d"] := by
  refine ⟨rfl, by decide, by decide, by decide, by decide, by decide, by decide⟩

/-- C5 amended: for every serviceTask, a present delegate-expression attribute
is validated through the Expression Syntax Validator (its issues and variables
reach the task contribution) and yields the CRITICAL worker issue; a present
implementation-class attribute yields the CRITICAL worker issue (without
expression validation); a present generic expression attribute is validated
through the Expression Syntax Validator. -/
theorem service_task_attribute_rules (task : XMLElement) :
    (∀ d, task.get (camKey "delegateExpression") = some d → d ≠ "" →
      delegateWorkerIssue (task.getD "id" "unknown") (task.getD "name" "Unnamed") d ∈
          (serviceTaskContribution task).1 ∧
      (∀ i ∈ (validate_expression d (task.getD "id" "unknown") (task.getD "name" "Unnamed")
          "delegateExpression").1, i ∈ (serviceTaskContribution task).1) ∧
      (∀ v ∈ (validate_expression d (task.getD "id" "unknown") (task.getD "name" "Unnamed")
          "delegateExpression").2, v ∈ (serviceTaskContribution task).2)) ∧
    (∀ c, task.get (camKey "class") = some c → c ≠ "" →
      classWorkerIssue (task.getD "id" "unknown") (task.getD "name" "Unnamed") c ∈
        (serviceTaskContribution task).1) ∧
    (∀ e, task.get (camKey "expression") = some e → e ≠ "" →
      (∀ i ∈ (validate_expression e (task.getD "id" "unknown") (task.getD "name" "Unnamed")
          "expression attribute").1, i ∈ (serviceTaskContribution task).1) ∧
      (∀ v ∈ (validate_expression e (task.getD "id" "unknown") (task.getD "name" "Unnamed")
          "expression attribute").2, v ∈ (serviceTaskContribution task).2)) := by
  refine ⟨?_, ?_, ?_⟩
  · intro d hd hdne
    refine ⟨?_, ?_, ?_⟩
    · simp [serviceTaskContribution, combineAll, combine, emptyContribution, truthyStr, hd,
            hdne, optVal, List.mem_append, mem_varsUnion]
    · intro i hi
      simp [serviceTaskContribution, combineAll, combine, emptyContribution, truthyStr, hd,
            hdne, optVal, List.mem_append, mem_varsUnion]
      tauto
    · intro v hv
      simp [serviceTaskContribution, combineAll, combine, emptyContribution, truthyStr, hd,
            hdne, optVal, List.mem_append, mem_varsUnion]
      tauto
  · intro c hc hcne
    simp [serviceTaskContribution, combineAll, combine, emptyContribution, truthyStr, hc,
          hcne, optVal, List.mem_append, mem_varsUnion]
  · intro e he hene
    refine ⟨?_, ?_⟩
    · intro i hi
      simp [serviceTaskContribution, combineAll, combine, emptyContribution, truthyStr, he,
            hene, optVal, List.mem_append, mem_varsUnion]
      tauto
    · intro v hv
      simp [serviceTaskContribution, combineAll, combine, emptyContribution, truthyStr, he,
            hene, optVal, List.mem_append, mem_varsUnion]
      tauto

/-- Witness for C5 amended on a concrete service task with all three attributes. -/
theorem service_task_attribute_rules_witness :
    delegateWorkerIssue "t2" "Unnamed" "$\x7bdel\x7d" ∈
        (serviceTaskContribution fullServiceTask).1 ∧
    classWorkerIssue "t2" "Unnamed" "com.acme.MyDelegate" ∈
        (serviceTaskContribution fullServiceTask).1 ∧
    ("del" ∈ (serviceTaskContribution fullServiceTask).2) :=
  ⟨((service_task_attribute_rules fullServiceTask).1 "$\x7bdel\x7d" rfl (by decide)).1,
   (service_task_attribute_rules fullServiceTask).2.1 "com.acme.MyDelegate" rfl (by decide),
   ((service_task_attribute_rules fullServiceTask).1 "$\x7bdel\x7d" rfl (by decide)).2.2
      "del" (by decide)⟩

/-- C10: the statistics aggregator tracks exactly the fifteen enumerated
element types, which do not include complexGateway; hence a document whose
only flow element is a complex gateway reports zero total elements even
though the rule catalog emits a CRITICAL Gateway issue for that gateway. -/
theorem element_counts_exclude_complex_gateway :
    element_types.length = 15 ∧
    "complexGateway" ∉ element_types ∧
    (∀ (root : XMLElement) (issues : List MigrationIssue) (vars : List String),
      (calculate_statistics root issues vars).element_counts.map Prod.fst = element_types) ∧
    ((analyze "cg.bpmn" (some cgDoc)).map (fun r => r.statistics.total_elements) = some 0) ∧
    ((analyze "cg.bpmn" (some cgDoc)).map (fun r =>
        (r.issues.filter (fun i => decide (i.category = "Gateway"))).map
          (fun i => (i.severity, i.element_id))) = some [(Severity.CRITICAL, "cg1")]) := by
  refine ⟨by decide, by decide, ?_, by decide, by decide⟩
  intro root issues vars
  rfl
